import Mathlib

/-!
Verification of the `httpanic` middleware package.

A shallow embedding of `httpanic.go`: the `Reason` data type, the `Because`
builder with its `Detail` modifiers, the two renderers (`defaultRenderer`,
`AsJSON`), and the recovery wrapper (`attemptToRecover`, `GracefullyRender`,
`Gracefully`).

Modelling conventions:
* A Go `error` interface value is modelled by `Option GoErr`: `none` is the
  nil interface, `some e` an error value characterised by its `Error()`
  string (`GoErr.msg`).
* The response writer is modelled by the trace of operations performed on it
  (`RWOp`): status-line writes, header sets and body writes.  The effective
  status line is the first `writeHeader` in the trace, matching
  `net/http` semantics where later `WriteHeader` calls are ignored.
* A handler is its behaviour: a function from the request to the trace of
  writer operations it performs together with its termination
  (`none` = normal return, `some none` = `panic(nil)`,
  `some (some p)` = `panic(p)`).
* `recover()` is modelled by `Option.join` on that termination value: it
  yields the panic argument, collapsing `panic(nil)` and "no panic" to
  `nil`, and it stops any in-flight panic — the semantics of Go before 1.21,
  which the comment inside `attemptToRecover` explicitly assumes
  ("recover returns nil when ... panic() was called with nil as an
  argument.  Since it is impossible to distinguish between these cases,
  don't even try.").
* The wrapper additionally records the list of `Reason`s it passed to the
  configured renderer (`renderCalls`), so that "the renderer is invoked
  exactly once with r" and "the renderer is never invoked" are directly
  statable observations of the trace semantics.
* JSON is modelled at the level of the parsed value (`Json`): the
  serialise-then-parse round trip of `encoding/json` is the identity at
  this level, and the spec treats textual JSON encoding as out of scope.
-/

namespace Httpanic

/-- A Go `error` value that is not a `Reason`, characterised by the string
returned from its `Error()` method (as produced by `errors.New`). -/
structure GoErr where
  msg : String
deriving DecidableEq, Repr

/-- The `Error()` method of a (non-nil) Go error value. -/
def GoErr.Error (e : GoErr) : String := e.msg

/-- `errors.New`: an error holding the given string as its message. -/
def errorsNew (s : String) : GoErr := ⟨s⟩

/-- `httpanic.Reason`: the value type describing why a handler panicked.
The embedded `error` interface field may be nil (`none`), since `Because`
never checks its argument. -/
structure Reason where
  error : Option GoErr
  Status : Int
  Explanation : String
deriving DecidableEq, Repr

/-- Calling the promoted `Error()` method on a `Reason`.  When the embedded
error interface is nil this is a nil-pointer dereference, i.e. a runtime
panic, modelled by `none`. -/
def Reason.ErrorCall (r : Reason) : Option String := r.error.map GoErr.Error

/-- `Reason.Unwrap`: returns the embedded error. -/
def Reason.Unwrap (r : Reason) : Option GoErr := r.error

/-- `httpanic.Detail`: a modifier applied during `Because`.  The Go
`func(*Reason)` mutation is modelled as a function on `Reason`. -/
def Detail := Reason → Reason

/-- `httpanic.WithStatus`: sets an explicit HTTP status on the Reason. -/
def WithStatus (status : Int) : Detail := fun r => { r with Status := status }

/-- `httpanic.WithExplanation`: sets an explicit explanation on the Reason. -/
def WithExplanation (explanation : String) : Detail :=
  fun r => { r with Explanation := explanation }

/-- `http.StatusInternalServerError`. -/
def statusInternalServerError : Int := 500

/-- `httpanic.Because`: builds a `Reason` with status 500 and empty
explanation, then applies each `Detail` in order. -/
def Because (e : Option GoErr) (deets : List Detail) : Reason :=
  deets.foldl (fun r d => d r)
    { error := e, Status := statusInternalServerError, Explanation := "" }

/-- A parsed JSON value, as far as this package's bodies need. -/
inductive Json where
  | str : String → Json
  | obj : List (String × Json) → Json
deriving Repr

/-- Field lookup on a parsed JSON object. -/
def Json.field (j : Json) (k : String) : Option Json :=
  match j with
  | .obj fs => fs.lookup k
  | .str _ => none

/-- `Reason.MarshalJSON`: serialises to `{"error": r.Error(),
"explanation": r.Explanation}` with `omitempty` on the explanation and no
`status` field.  Calling `r.Error()` on a nil embedded error panics,
modelled by `none`. -/
def Reason.MarshalJSON (r : Reason) : Option Json :=
  match r.error with
  | none => none
  | some e => some (Json.obj
      (("error", Json.str e.Error) ::
        (if r.Explanation = "" then []
         else [("explanation", Json.str r.Explanation)])))

/-- One operation performed on the `http.ResponseWriter` sink. -/
inductive RWOp where
  | writeHeader : Int → RWOp
  | setHeader : String → String → RWOp
  | writeBody : Json → RWOp
deriving Repr

/-- The effective status line of a response trace: the first `WriteHeader`
wins; later calls are superfluous and ignored by `net/http`. -/
def statusLineOf (ops : List RWOp) : Option Int :=
  ops.findSome? fun op =>
    match op with
    | .writeHeader s => some s
    | _ => none

/-- A value passed to `panic` by a handler or a renderer, classified the way
the type switch in `attemptToRecover` sees it: an `httpanic.Reason`, some
other `error` value, a `string`, or anything else (`other`, an unrecognized
non-nil value, indexed so that distinct unrecognized payloads exist). -/
inductive Payload where
  | reason : Reason → Payload
  | err : GoErr → Payload
  | str : String → Payload
  | other : Nat → Payload
deriving Repr

/-- The effect of one renderer invocation on the writer: the operations it
performs, and whether it panics (with which payload) before returning. -/
structure RenderEffect where
  ops : List RWOp
  panicked : Option Payload
deriving Repr

/-- `httpanic.Renderer`: writes a Reason to the sink; may itself panic. -/
def Renderer := Reason → RenderEffect

/-- `httpanic.defaultRenderer`: sends the Reason's status to the client and
nothing else. -/
def defaultRenderer : Renderer := fun reason =>
  { ops := [RWOp.writeHeader reason.Status], panicked := none }

/-- The runtime error raised by dereferencing a nil interface, as a panic
payload (it is an `error` value). -/
def nilDereference : GoErr :=
  ⟨"runtime error: invalid memory address or nil pointer dereference"⟩

/-- `httpanic.AsJSON`: sets the JSON content type, writes the status, then
encodes the Reason.  Encoding a Reason whose embedded error is nil panics
(the nil-pointer dereference inside `MarshalJSON` propagates out of
`encoding/json`), after the header and status have already been written. -/
def AsJSON : Renderer := fun reason =>
  match reason.MarshalJSON with
  | some j =>
      { ops := [RWOp.setHeader "Content-Type" "application/json; charset=utf-8",
                RWOp.writeHeader reason.Status,
                RWOp.writeBody j],
        panicked := none }
  | none =>
      { ops := [RWOp.setHeader "Content-Type" "application/json; charset=utf-8",
                RWOp.writeHeader reason.Status],
        panicked := some (Payload.err nilDereference) }

/-- `httpanic.reasoner`: how to convert an error to a Reason; `Because` is
a reasoner. -/
def Reasoner := Option GoErr → List Detail → Reason

/-- The effect of the deferred recovery routine: operations added to the
writer, the Reasons passed to the renderer, and the panic (if any) that
escapes it (`some none` would be `panic(nil)`, `some (some p)` is
`panic(p)`). -/
structure RecoverEffect where
  ops : List RWOp
  renderCalls : List Reason
  panicked : Option (Option Payload)
deriving Repr

/-- `httpanic.attemptToRecover`, applied to the value `recover()` returned
(`none` both when the goroutine was not panicking and when `panic(nil)` was
called — the code deliberately does not distinguish these and returns).
A `Reason` payload is rendered directly; an `error` payload is rendered as
`cuz(err)`; a `string` payload as `cuz(errors.New(s))`; anything else is
re-panicked unchanged.  A panic raised by the renderer itself escapes. -/
def attemptToRecover (render : Renderer) (cuz : Reasoner)
    (r : Option Payload) : RecoverEffect :=
  match r with
  | none => { ops := [], renderCalls := [], panicked := none }
  | some (Payload.reason reason) =>
      let e := render reason
      { ops := e.ops, renderCalls := [reason], panicked := e.panicked.map some }
  | some (Payload.err er) =>
      let reason := cuz (some er) []
      let e := render reason
      { ops := e.ops, renderCalls := [reason], panicked := e.panicked.map some }
  | some (Payload.str s) =>
      let reason := cuz (some (errorsNew s)) []
      let e := render reason
      { ops := e.ops, renderCalls := [reason], panicked := e.panicked.map some }
  | some (Payload.other n) =>
      { ops := [], renderCalls := [], panicked := some (some (Payload.other n)) }

/-- An opaque HTTP request. -/
structure Request where
  id : Nat
deriving DecidableEq, Repr

/-- The behaviour of an `http.Handler` on one request: the writer operations
it performs, and its termination (`none` = normal return, `some none` =
`panic(nil)`, `some (some p)` = `panic(p)`). -/
structure HandlerEffect where
  ops : List RWOp
  panicked : Option (Option Payload)
deriving Repr

/-- An `http.Handler`, modelled by its behaviour. -/
def Handler := Request → HandlerEffect

/-- The observable behaviour of a wrapped handler: writer operations,
recorded renderer invocations, and the panic (if any) escaping it. -/
structure WrapEffect where
  ops : List RWOp
  renderCalls : List Reason
  panicked : Option (Option Payload)
deriving Repr

/-- `httpanic.GracefullyRender`: runs `next` with `attemptToRecover`
deferred.  `recover()` stops any in-flight panic and yields its argument
(nil-collapsed: `Option.join`); the only panic that can escape the wrapped
handler is the one `attemptToRecover` itself raises. -/
def GracefullyRender (next : Handler) (render : Renderer) :
    Request → WrapEffect := fun req =>
  let h := next req
  let rcv := attemptToRecover render Because (Option.join h.panicked)
  { ops := h.ops ++ rcv.ops,
    renderCalls := rcv.renderCalls,
    panicked := rcv.panicked }

/-- `httpanic.Gracefully`: `GracefullyRender` with the default renderer. -/
def Gracefully (next : Handler) : Request → WrapEffect :=
  GracefullyRender next defaultRenderer

/-- The conversion performed by the type switch in `attemptToRecover`
(with `cuz = Because`, as passed by `GracefullyRender`), as a function:
the Reason delivered to the renderer for a classified payload, `none` for
an unclassified one. -/
def classifyToReason : Payload → Option Reason
  | .reason rz => some rz
  | .err e => some (Because (some e) [])
  | .str s => some (Because (some (errorsNew s)) [])
  | .other _ => none

/-! ## Syntactic modifier sequences

The spec's claims about `Because` quantify over sequences of the two
provided modifiers, so we name them syntactically and interpret them into
`Detail`. -/

/-- A syntactic occurrence of one of the two provided modifiers. -/
inductive Deet where
  | status : Int → Deet
  | explanation : String → Deet
deriving DecidableEq, Repr

/-- Interpretation of a syntactic modifier as the `Detail` the source
provides for it. -/
def Deet.toDetail : Deet → Detail
  | .status s => WithStatus s
  | .explanation e => WithExplanation e

/-- The argument carried by a status modifier, if it is one. -/
def Deet.statusArg : Deet → Option Int
  | .status s => some s
  | .explanation _ => none

/-- The argument carried by an explanation modifier, if it is one. -/
def Deet.explanationArg : Deet → Option String
  | .status _ => none
  | .explanation e => some e

/-- The argument of the last status modifier in the sequence, or 500 when
there is none — the spec's "last write wins" value. -/
def lastStatus (M : List Deet) : Int :=
  (M.reverse.findSome? Deet.statusArg).getD 500

/-- The argument of the last explanation modifier in the sequence, or the
empty string when there is none. -/
def lastExplanation (M : List Deet) : String :=
  (M.reverse.findSome? Deet.explanationArg).getD ""

/-! ## Concrete fixtures used to instantiate the theorems -/

/-- A concrete request. -/
def req0 : Request := ⟨0⟩

/-- A concrete error value. -/
def errorX : GoErr := ⟨"errorX"⟩

/-- `Because(errorX, WithStatus(400))`. -/
def reason400 : Reason := Because (some errorX) [WithStatus 400]

/-- A handler that panics with an already-built `Reason`. -/
def handlerPanicReason400 : Handler := fun _ =>
  { ops := [], panicked := some (some (Payload.reason reason400)) }

/-- A handler that calls `panic(nil)`. -/
def handlerPanicNil : Handler := fun _ =>
  { ops := [], panicked := some none }

/-- A handler that panics with a plain (non-Reason) error value. -/
def handlerPanicErr : Handler := fun _ =>
  { ops := [], panicked := some (some (Payload.err ⟨"rut-ro raggy"⟩)) }

/-- A handler that panics with the plain string `"oops"`. -/
def handlerPanicOops : Handler := fun _ =>
  { ops := [], panicked := some (some (Payload.str "oops")) }

/-- A handler that panics with an unrecognized non-nil payload. -/
def handlerPanicOther : Handler := fun _ =>
  { ops := [], panicked := some (some (Payload.other 7)) }

/-- A handler that returns normally after writing a 200 status. -/
def handlerNormal : Handler := fun _ =>
  { ops := [RWOp.writeHeader 200], panicked := none }

/-- A handler that panics with a `Reason` whose cause is nil, so that the
JSON renderer panics while rendering it. -/
def handlerPanicNilReason : Handler := fun _ =>
  { ops := [], panicked := some (some (Payload.reason (Because none []))) }

/-- A concrete Reason with non-nil cause and non-empty explanation. -/
def reasonChill : Reason :=
  { error := some ⟨"this is an error"⟩, Status := 420, Explanation := "Chill, man!" }

theorem foldDeets_error (M : List Deet) (r : Reason) :
    (M.foldl (fun r d => d.toDetail r) r).error = r.error := by
  induction M generalizing r with
  | nil => rfl
  | cons d M ih =>
    cases d <;>
      simpa [List.foldl_cons, Deet.toDetail, WithStatus, WithExplanation]
        using ih _

theorem foldDeets_status (M : List Deet) (r : Reason) :
    (M.foldl (fun r d => d.toDetail r) r).Status =
      (M.reverse.findSome? Deet.statusArg).getD r.Status := by
  induction M generalizing r with
  | nil => rfl
  | cons d M ih =>
    rw [List.foldl_cons, ih, List.reverse_cons, List.findSome?_append]
    cases h : M.reverse.findSome? Deet.statusArg with
    | some s => simp [Option.or, h]
    | none =>
      cases d <;>
        simp [Option.or, h, Deet.toDetail, Deet.statusArg,
          WithStatus, WithExplanation, List.findSome?]

theorem foldDeets_explanation (M : List Deet) (r : Reason) :
    (M.foldl (fun r d => d.toDetail r) r).Explanation =
      (M.reverse.findSome? Deet.explanationArg).getD r.Explanation := by
  induction M generalizing r with
  | nil => rfl
  | cons d M ih =>
    rw [List.foldl_cons, ih, List.reverse_cons, List.findSome?_append]
    cases h : M.reverse.findSome? Deet.explanationArg with
    | some e => simp [Option.or, h]
    | none =>
      cases d <;>
        simp [Option.or, h, Deet.toDetail, Deet.explanationArg,
          WithStatus, WithExplanation, List.findSome?]

/-- C4: For every cause C and every finite sequence of modifiers M,
`Because(C, M...)` returns a Reason whose cause is C, whose status equals
the argument of the last `WithStatus` modifier in M (or 500 if M contains
none), and whose explanation equals the argument of the last
`WithExplanation` modifier in M (or the empty string if M contains none);
in particular `Because(C)` with no modifiers yields status 500 and empty
explanation. -/
theorem because_last_modifier_wins (c : Option GoErr) (M : List Deet) :
    (Because c (M.map Deet.toDetail)).error = c ∧
    (Because c (M.map Deet.toDetail)).Status = lastStatus M ∧
    (Because c (M.map Deet.toDetail)).Explanation = lastExplanation M ∧
    Because c [] = { error := c, Status := 500, Explanation := "" } := by
  unfold Because lastStatus lastExplanation
  rw [List.foldl_map]
  exact ⟨foldDeets_error M _, foldDeets_status M _, foldDeets_explanation M _, rfl⟩

/-- C8: For every handler H, `Gracefully(H)` is `GracefullyRender(H,
defaultRenderer)`, and the default renderer writes exactly the Reason's
status code as the response status line and nothing else — no body, no
headers. -/
theorem gracefully_is_gracefullyRender_default :
    (∀ next : Handler, Gracefully next = GracefullyRender next defaultRenderer) ∧
    (∀ r : Reason,
      defaultRenderer r = { ops := [RWOp.writeHeader r.Status], panicked := none }) :=
  ⟨fun _ => rfl, fun _ => rfl⟩

/-- C10: `Because` never inspects its cause: with a nil cause it still
returns a Reason with nil cause (whose `Unwrap` is nil) and status 500, and
rendering that Reason with the structured JSON renderer panics, because
encoding calls the nil cause's `Error()` method. -/
theorem because_nil_cause_unchecked :
    Because none [] = { error := none, Status := 500, Explanation := "" } ∧
    Reason.Unwrap (Because none []) = none ∧
    (Because none []).MarshalJSON = none ∧
    (AsJSON (Because none [])).panicked = some (Payload.err nilDereference) := by
  refine ⟨rfl, rfl, rfl, rfl⟩

/-- C1: A handler that panics with a value that is already a `Reason`
causes the wrapper to invoke the configured renderer exactly once with that
same Reason, unchanged and not re-wrapped through the builder; with the
status-writing renderer the resulting response status line (of a response
whose status was not already written) is the Reason's status, and
`Because(errorX, WithStatus(400))` carries status 400 and cause errorX. -/
theorem gracefullyRender_reason_payload (next : Handler) (req : Request)
    (render : Renderer) (rz : Reason)
    (h : (next req).panicked = some (some (Payload.reason rz)))
    (hw : statusLineOf (next req).ops = none) :
    (GracefullyRender next render req).renderCalls = [rz] ∧
    statusLineOf (GracefullyRender next defaultRenderer req).ops = some rz.Status ∧
    ∀ eX : GoErr, Because (some eX) [WithStatus 400] =
      { error := some eX, Status := 400, Explanation := "" } := by
  unfold statusLineOf at hw
  refine ⟨?_, ?_, fun _ => rfl⟩
  · simp [GracefullyRender, attemptToRecover, h]
  · simp [GracefullyRender, attemptToRecover, defaultRenderer, h,
      statusLineOf, List.findSome?_append, hw, Option.or]

/-- C1 witness at `handlerPanicReason400` with the default renderer. -/
theorem gracefullyRender_reason_payload_witness :
    (GracefullyRender handlerPanicReason400 defaultRenderer req0).renderCalls
        = [reason400] ∧
    statusLineOf (GracefullyRender handlerPanicReason400 defaultRenderer req0).ops
        = some reason400.Status ∧
    ∀ eX : GoErr, Because (some eX) [WithStatus 400] =
      { error := some eX, Status := 400, Explanation := "" } :=
  gracefullyRender_reason_payload handlerPanicReason400 req0 defaultRenderer
    reason400 rfl rfl

/-- C2 counterexample: the claim says a `panic(nil)` abort repropagates
past the wrapper, but on `handlerPanicNil` the wrapped handler panics with
nothing at all — `recover()` consumed the nil panic and the recovery
routine returned, so the abort is swallowed (no render call is made, as the
claim also says). -/
theorem gracefullyRender_nil_panic_cex :
    (GracefullyRender handlerPanicNil defaultRenderer req0).panicked ≠ some none ∧
    (GracefullyRender handlerPanicNil defaultRenderer req0).panicked = none ∧
    (GracefullyRender handlerPanicNil defaultRenderer req0).renderCalls = [] :=
  ⟨fun h => Option.noConfusion h, rfl, rfl⟩

/-- C2 (amended): a handler that panics with a nil payload is not rendered
and not repropagated: the wrapper's `recover()` consumes the panic, the
recovery routine returns without acting, and the wrapped handler returns
normally with the sink exactly as the handler left it. -/
theorem gracefullyRender_nil_panic_swallowed (next : Handler) (req : Request)
    (render : Renderer) (h : (next req).panicked = some none) :
    (GracefullyRender next render req).renderCalls = [] ∧
    (GracefullyRender next render req).panicked = none ∧
    (GracefullyRender next render req).ops = (next req).ops := by
  refine ⟨?_, ?_, ?_⟩ <;> simp [GracefullyRender, attemptToRecover, h]

/-- C2 witness at `handlerPanicNil`. -/
theorem gracefullyRender_nil_panic_swallowed_witness :
    (GracefullyRender handlerPanicNil defaultRenderer req0).renderCalls = [] ∧
    (GracefullyRender handlerPanicNil defaultRenderer req0).panicked = none ∧
    (GracefullyRender handlerPanicNil defaultRenderer req0).ops
        = (handlerPanicNil req0).ops :=
  gracefullyRender_nil_panic_swallowed handlerPanicNil req0 defaultRenderer rfl

/-- C3: a handler that panics with a generic error value E makes the
renderer receive `Because(E)` — cause E, status 500, empty explanation —
and a handler that panics with a plain string S makes the renderer receive
a Reason whose cause's string form is S, with default status 500 and empty
explanation. -/
theorem gracefullyRender_error_string_payload (nextE nextS : Handler)
    (req : Request) (render : Renderer) (e : GoErr) (s : String)
    (hE : (nextE req).panicked = some (some (Payload.err e)))
    (hS : (nextS req).panicked = some (some (Payload.str s))) :
    (GracefullyRender nextE render req).renderCalls = [Because (some e) []] ∧
    Because (some e) [] = { error := some e, Status := 500, Explanation := "" } ∧
    (GracefullyRender nextS render req).renderCalls =
      [{ error := some (errorsNew s), Status := 500, Explanation := "" }] ∧
    (errorsNew s).Error = s := by
  refine ⟨?_, rfl, ?_, rfl⟩ <;>
    simp [GracefullyRender, attemptToRecover, hE, hS, Because,
      statusInternalServerError]

/-- C3 witness at `handlerPanicErr` and `handlerPanicOops`. -/
theorem gracefullyRender_error_string_payload_witness :
    (GracefullyRender handlerPanicErr defaultRenderer req0).renderCalls
        = [Because (some ⟨"rut-ro raggy"⟩) []] ∧
    Because (some (⟨"rut-ro raggy"⟩ : GoErr)) [] =
      { error := some ⟨"rut-ro raggy"⟩, Status := 500, Explanation := "" } ∧
    (GracefullyRender handlerPanicOops defaultRenderer req0).renderCalls =
      [{ error := some (errorsNew "oops"), Status := 500, Explanation := "" }] ∧
    (errorsNew "oops").Error = "oops" :=
  gracefullyRender_error_string_payload handlerPanicErr handlerPanicOops req0
    defaultRenderer ⟨"rut-ro raggy"⟩ "oops" rfl rfl

/-- C5: a handler that panics with a non-nil payload that is neither a
Reason, nor an error, nor a string has exactly that payload re-panicked
past the wrapper, the renderer is never invoked, and the sink is left
exactly as the handler left it. -/
theorem gracefullyRender_unrecognized_repropagated (next : Handler)
    (req : Request) (render : Renderer) (n : Nat)
    (h : (next req).panicked = some (some (Payload.other n))) :
    (GracefullyRender next render req).panicked = some (some (Payload.other n)) ∧
    (GracefullyRender next render req).renderCalls = [] ∧
    (GracefullyRender next render req).ops = (next req).ops := by
  refine ⟨?_, ?_, ?_⟩ <;> simp [GracefullyRender, attemptToRecover, h]

/-- C5 witness at `handlerPanicOther`. -/
theorem gracefullyRender_unrecognized_repropagated_witness :
    (GracefullyRender handlerPanicOther defaultRenderer req0).panicked
        = some (some (Payload.other 7)) ∧
    (GracefullyRender handlerPanicOther defaultRenderer req0).renderCalls = [] ∧
    (GracefullyRender handlerPanicOther defaultRenderer req0).ops
        = (handlerPanicOther req0).ops :=
  gracefullyRender_unrecognized_repropagated handlerPanicOther req0
    defaultRenderer 7 rfl

/-- C6: serializing a Reason with non-nil cause through the structured JSON
renderer succeeds and the parsed body has an `error` field equal to the
cause's string form, an `explanation` key present iff the explanation is
non-empty (and then equal to it), and no `status` field. -/
theorem marshalJSON_roundtrip (r : Reason) (e : GoErr) (h : r.error = some e) :
    ∃ j, r.MarshalJSON = some j ∧
      (AsJSON r).ops =
        [RWOp.setHeader "Content-Type" "application/json; charset=utf-8",
         RWOp.writeHeader r.Status, RWOp.writeBody j] ∧
      (AsJSON r).panicked = none ∧
      Json.field j "error" = some (Json.str e.Error) ∧
      (r.Explanation = "" → Json.field j "explanation" = none) ∧
      (r.Explanation ≠ "" → Json.field j "explanation" = some (Json.str r.Explanation)) ∧
      Json.field j "status" = none := by
  by_cases hE : r.Explanation = ""
  · refine ⟨Json.obj [("error", Json.str e.Error)], ?_, ?_, ?_, ?_, ?_, ?_, ?_⟩
    · simp [Reason.MarshalJSON, h, hE]
    · simp [AsJSON, Reason.MarshalJSON, h, hE]
    · simp [AsJSON, Reason.MarshalJSON, h, hE]
    · rfl
    · intro _; rfl
    · intro hne; exact absurd hE hne
    · rfl
  · refine ⟨Json.obj [("error", Json.str e.Error),
        ("explanation", Json.str r.Explanation)], ?_, ?_, ?_, ?_, ?_, ?_, ?_⟩
    · simp [Reason.MarshalJSON, h, hE]
    · simp [AsJSON, Reason.MarshalJSON, h, hE]
    · simp [AsJSON, Reason.MarshalJSON, h, hE]
    · rfl
    · intro hEq; exact absurd hEq hE
    · intro _; rfl
    · rfl

/-- C6 witness at `reasonChill`. -/
theorem marshalJSON_roundtrip_witness :
    ∃ j, reasonChill.MarshalJSON = some j ∧
      (AsJSON reasonChill).ops =
        [RWOp.setHeader "Content-Type" "application/json; charset=utf-8",
         RWOp.writeHeader reasonChill.Status, RWOp.writeBody j] ∧
      (AsJSON reasonChill).panicked = none ∧
      Json.field j "error" = some (Json.str (GoErr.Error ⟨"this is an error"⟩)) ∧
      (reasonChill.Explanation = "" → Json.field j "explanation" = none) ∧
      (reasonChill.Explanation ≠ "" →
        Json.field j "explanation" = some (Json.str reasonChill.Explanation)) ∧
      Json.field j "status" = none :=
  marshalJSON_roundtrip reasonChill ⟨"this is an error"⟩ rfl

/-- C7: when the wrapped handler returns normally the wrapper adds nothing:
the sink trace is exactly the handler's, the renderer is never invoked, and
no panic escapes. -/
theorem gracefullyRender_normal_path (next : Handler) (req : Request)
    (render : Renderer) (h : (next req).panicked = none) :
    GracefullyRender next render req =
      { ops := (next req).ops, renderCalls := [], panicked := none } := by
  simp [GracefullyRender, attemptToRecover, h]

/-- C7 witness at `handlerNormal`. -/
theorem gracefullyRender_normal_path_witness :
    GracefullyRender handlerNormal defaultRenderer req0 =
      { ops := (handlerNormal req0).ops, renderCalls := [], panicked := none } :=
  gracefullyRender_normal_path handlerNormal req0 defaultRenderer rfl

/-- C9: when the handler's abort is classified (a Reason, error or string,
i.e. `classifyToReason` yields the Reason handed to the renderer) and the
configured renderer itself panics while rendering, the wrapper performs no
second recovery: the renderer's panic escapes the wrapped handler. -/
theorem renderer_panic_uncaught (next : Handler) (req : Request)
    (render : Renderer) (p : Payload) (rz : Reason) (q : Payload)
    (hp : (next req).panicked = some (some p))
    (hc : classifyToReason p = some rz)
    (hq : (render rz).panicked = some q) :
    (GracefullyRender next render req).panicked = some (some q) := by
  cases p <;> simp [classifyToReason] at hc <;> subst hc <;>
    simp [GracefullyRender, attemptToRecover, hp, hq]

/-- C9 witness: the JSON renderer panics on a nil-cause Reason, and that
panic escapes the wrapper. -/
theorem renderer_panic_uncaught_witness :
    (GracefullyRender handlerPanicNilReason AsJSON req0).panicked =
      some (some (Payload.err nilDereference)) :=
  renderer_panic_uncaught handlerPanicNilReason req0 AsJSON
    (Payload.reason (Because none [])) (Because none [])
    (Payload.err nilDereference) rfl rfl rfl

end Httpanic
